import Mathlib

/-!
Verification of the booking-platform handlers: a shallow embedding of the
spreadsheet-backed booking code (webhook, create-direct-booking,
booking-details, create-checkout) and proofs about the properties its
specification states.  Sheet grids are lists of rows of cells, a cell read
out of range standing for the JavaScript undefined value (None).
-/

/-! ## JavaScript numeric parsing (parseInt) -/

/-- Numeric value of a decimal digit character. -/
def decDigitVal (c : Char) : Nat := c.toNat - 48

/-- Value of a list of decimal digit characters, most significant first. -/
def natOfDecDigits (cs : List Char) : Nat :=
  cs.foldl (fun a c => a * 10 + decDigitVal c) 0

/-- Hexadecimal digit test (0-9, a-f, A-F), as parseInt with detected radix 16 accepts. -/
def isHexDigitChar (c : Char) : Bool :=
  c.isDigit || (97 ≤ c.toNat && c.toNat ≤ 102) || (65 ≤ c.toNat && c.toNat ≤ 70)

/-- Numeric value of a hexadecimal digit character. -/
def hexDigitVal (c : Char) : Nat :=
  if c.isDigit then c.toNat - 48
  else if 97 ≤ c.toNat && c.toNat ≤ 102 then c.toNat - 87
  else c.toNat - 55

/-- Value of a list of hexadecimal digit characters, most significant first. -/
def natOfHexDigits (cs : List Char) : Nat :=
  cs.foldl (fun a c => a * 16 + hexDigitVal c) 0

/-- Model of the JavaScript builtin parseInt(s) as called by the handlers (radix
argument omitted): skip leading whitespace, read an optional sign, detect a 0x/0X
radix-16 marker, then take the longest run of digits; None models the NaN result
when no digit is found. -/
def parseIntJS (s : String) : Option Int :=
  let cs := s.data.dropWhile (fun c => c.isWhitespace)
  let signBody : Int × List Char :=
    match cs with
    | '-' :: rest => (-1, rest)
    | '+' :: rest => (1, rest)
    | _ => (1, cs)
  let sign := signBody.1
  let body := signBody.2
  match body with
  | '0' :: x :: rest =>
    if x = 'x' ∨ x = 'X' then
      let ds := rest.takeWhile isHexDigitChar
      if ds.isEmpty then none else some (sign * (natOfHexDigits ds : Int))
    else
      some (sign * (natOfDecDigits (body.takeWhile Char.isDigit) : Int))
  | _ =>
    let ds := body.takeWhile Char.isDigit
    if ds.isEmpty then none else some (sign * (natOfDecDigits ds : Int))

/-- Model of the handler idiom parseInt(v) || 0 applied to a sheet cell: a missing
cell (undefined) or a non-numeric string parses as 0. -/
def parseIntOr0 (v : Option String) : Int :=
  match v with
  | none => 0
  | some s =>
    match parseIntJS s with
    | none => 0
    | some n => n

/-- Core of decrement_capacity as written in saveCompleteBookingAfterPayment and
saveDirectBookingToSheets: newSpots = Math.max(0, (parseInt(spots) || 0) - 1). -/
def decrementSpots (v : Option String) : Int :=
  max 0 (parseIntOr0 v - 1)

/-! ## Column-letter addressing (Row Store Adapter update_cell)

Modelled from the spec: the Row Store Adapter operation update_cell addresses the
written cell by a spreadsheet-style column letter in bijective base-26 (A=1 ...
Z=26, AA=27 ...).  The handlers in the source only ever pass the fixed letters J
(spots_remaining) and M (Spots Available), so the general index-to-letter encoding
is not present as a function under src/ and is modelled here from the spec text. -/

/-- Modelled from the spec: bijective base-26 rendering of a 1-based column index,
with explicit fuel (fuel n suffices since the index shrinks strictly). -/
def columnLetterAux : Nat → Nat → List Char
  | 0, _ => []
  | _ + 1, 0 => []
  | fuel + 1, n => columnLetterAux fuel ((n - 1) / 26) ++ [Char.ofNat (65 + (n - 1) % 26)]

/-- Modelled from the spec: column letter of a 1-based column index (A=1 ... Z=26, AA=27 ...). -/
def columnLetterOfIndex (n : Nat) : String := String.mk (columnLetterAux n n)

/-- Modelled from the spec: 1-based column index denoted by a column-letter string. -/
def indexOfColumnLetters (s : String) : Nat :=
  s.data.foldl (fun a c => a * 26 + (c.toNat - 64)) 0

/-- Bijective base-26 value of a letter list (helper for the round-trip proof). -/
def lettersVal (cs : List Char) : Nat :=
  cs.foldl (fun a c => a * 26 + (c.toNat - 64)) 0

/-! ## Payment-identifier resolution (webhook confirmation flow) -/

/-- The fixed checkout-session test performed by every webhook variant:
sessionId.startsWith(cs_test_) || sessionId.startsWith(cs_live_), expressed on
the character data of the strings. -/
def isCheckoutSessionId (s : String) : Bool :=
  "cs_test_".data.isPrefixOf s.data || "cs_live_".data.isPrefixOf s.data

/-- The identifier-resolution step of the webhook handlers: when the inbound
identifier carries a checkout-session marker it is resolved through the payment
provider (retrieve, modelling stripe.checkout.sessions.retrieve, returns the
payment-intent id or fails), and a provider failure is reported as the fixed
500 message; otherwise the identifier is used unchanged. -/
def resolvePaymentKey (sessionId : String) (retrieve : String → Except String String) :
    Except String String :=
  if isCheckoutSessionId sessionId then
    match retrieve sessionId with
    | Except.error _ => Except.error "Failed to retrieve session from Stripe"
    | Except.ok pid => Except.ok pid
  else Except.ok sessionId

/-! ## Sheet grids and row lookup -/

/-- A sheet grid as returned by spreadsheets.values.get: rows of string cells.
Reading a cell that a row does not reach models the JavaScript undefined. -/
abbrev Grid := List (List String)

/-- row[j]: cell access with undefined (none) out of range. -/
def cellAt (row : List String) (j : Nat) : Option String := row.get? j

/-- headers.indexOf(name): index of the first header cell equal to the name under
exact string equality, none standing for the -1 result. -/
def headerIndexOf (headers : List String) (name : String) : Option Nat :=
  headers.findIdx? (fun h => h == name)

/-- The indexed scan shared by updateBookingStatus and the event lookups,
starting at array index i: the first row whose cell at column c equals the
target, reported as its 1-based sheet index (array index + 1). -/
def findDataRowIdxAux (c : Nat) (t : String) : Nat → Grid → Option Nat
  | _, [] => none
  | i, r :: rest =>
    if cellAt r c = some t then some (i + 1) else findDataRowIdxAux c t (i + 1) rest

/-- for (let i = 1; i < rows.length; i++) if (rows[i][c] === t) return i + 1:
the row lookup of the webhook and create-direct-booking handlers, which skips
the header row at index 0.  Read-only: it only inspects the grid. -/
def findDataRowIdx (rows : Grid) (c : Nat) (t : String) : Option Nat :=
  findDataRowIdxAux c t 1 (rows.drop 1)

/-- bookingRows.find(row => row[c] === t): the booking-details lookup, which
scans every row of the grid, the header row at index 0 included.  Read-only. -/
def bdFindRow (rows : Grid) (c : Nat) (t : String) : Option (List String) :=
  rows.find? (fun r => cellAt r c == some t)

/-- find_row_by_column_value as the spec words it: resolve the column name
against the header row (ColumnNotFound when absent), then return the first data
row, rows 1..N in scan order, whose cell at that index equals the target, none
when no data row matches.  This definition follows the spec text and is compared
against the source-derived lookups above. -/
def findRowByColumnValueSpec (rows : Grid) (columnName target : String) :
    Except String (Option (List String)) :=
  match rows with
  | [] => Except.error "ColumnNotFound"
  | headers :: dataRows =>
    match headerIndexOf headers columnName with
    | none => Except.error "ColumnNotFound"
    | some c => Except.ok (dataRows.find? (fun r => cellAt r c == some target))

/-! ## Date and time conversion (convertToISODates of booking-details) -/

/-- Gregorian leap-year predicate. -/
def isLeapYear (y : Nat) : Bool := (y % 4 == 0 && y % 100 != 0) || y % 400 == 0

/-- Days in month m (1-12) of year y. -/
def daysInMonth (y m : Nat) : Nat :=
  if m = 2 then (if isLeapYear y then 29 else 28)
  else if m = 4 ∨ m = 6 ∨ m = 9 ∨ m = 11 then 30
  else 31

/-- Days before the first of month m (1-based) within year y. -/
def daysBeforeMonth (y m : Nat) : Nat :=
  (List.range (m - 1)).foldl (fun a k => a + daysInMonth y (k + 1)) 0

/-- Day count of a civil date, day 0 being 0001-01-01 of the proleptic
Gregorian calendar. -/
def civilDayNumber (y m d : Nat) : Nat :=
  (y - 1) * 365 + (y - 1) / 4 - (y - 1) / 100 + (y - 1) / 400 + daysBeforeMonth y m + (d - 1)

/-- 1970-01-01 as a civil day number. -/
def epochDayNumber : Nat := civilDayNumber 1970 1 1

/-- Milliseconds since the Unix epoch of the UTC timestamp y-m-d hh:mm. -/
def msOfUTC (y m d hh mm : Nat) : Int :=
  ((civilDayNumber y m d : Int) - (epochDayNumber : Int)) * 86400000 +
    (hh : Int) * 3600000 + (mm : Int) * 60000

/-- Nonempty all-decimal-digit string test. -/
def isDigitString (s : String) : Bool := !s.data.isEmpty && s.data.all Char.isDigit

/-- Nat value of a digit string. -/
def natOfDigitString (s : String) : Nat := natOfDecDigits s.data

/-- padStart(2, 0) of JavaScript on a string. -/
def padStart2 (s : String) : String :=
  if 2 ≤ s.length then s else String.mk (List.replicate (2 - s.length) '0' ++ s.data)

/-- String.prototype.split with a one-character separator (the handlers only
split on /, a space and a colon), on character lists. -/
def splitOnCharAux (sep : Char) : List Char → List Char → List (List Char)
  | acc, [] => [acc.reverse]
  | acc, c :: rest =>
    if c = sep then acc.reverse :: splitOnCharAux sep [] rest
    else splitOnCharAux sep (c :: acc) rest

/-- s.split(sep) for a one-character separator. -/
def jsSplitChar (sep : Char) (s : String) : List String :=
  (splitOnCharAux sep [] s.data).map String.mk

/-- JS template-literal coercion of a possibly-undefined string. -/
def jsTemplateStr (v : Option String) : String :=
  match v with
  | none => "undefined"
  | some s => s

/-- Model of new Date on the assembled template year-month-dayThours:minutes:00.000Z
followed by getTime: the ES Date Time String Format accepts the string exactly
when the year is four digits and month, day, hours and minutes are two-digit
numbers in calendar range, hours up to 23 or the end-of-day 24:00 that the
format also accepts (denoting midnight of the next day); any other assembled
string is an Invalid Date whose toISOString throws, sending the caller to the
catch block. -/
def parseISOTemplate (y m d hh mm : String) : Option Int :=
  if isDigitString y && y.length == 4 &&
      isDigitString m && m.length == 2 &&
      isDigitString d && d.length == 2 &&
      isDigitString hh && hh.length == 2 &&
      isDigitString mm && mm.length == 2 then
    let yv := natOfDigitString y
    let mv := natOfDigitString m
    let dv := natOfDigitString d
    let hv := natOfDigitString hh
    let minv := natOfDigitString mm
    if 1 ≤ mv && mv ≤ 12 && 1 ≤ dv && dv ≤ daysInMonth yv mv &&
        ((hv ≤ 23 && minv ≤ 59) || (hv == 24 && minv == 0)) then
      some (msOfUTC yv mv dv hv minv)
    else none
  else none

/-- The try-block of convertToISODates: split the date on /, the time on a space
and a colon, apply the AM/PM adjustment, assemble the ISO template and read it
as an instant in ms since the epoch.  none collects every way the original falls
into the catch block: a missing or falsy (empty) input, a date without a second
slash field (padStart of undefined throws), a PM time other than 12 (the code turns
hours into a number, whose padStart then throws), and an assembled string that
is not a valid timestamp (Invalid Date, whose toISOString throws). -/
def parseDateTimeJS (dateStr timeStr : Option String) : Option Int :=
  match dateStr, timeStr with
  | some ds, some ts =>
    if ds = "" ∨ ts = "" then none
    else
      let dparts := jsSplitChar '/' ds
      let day := dparts.headD ""
      match dparts.get? 1 with
      | none => none
      | some monthRaw =>
        let yearStr := jsTemplateStr (dparts.get? 2)
        let tparts := jsSplitChar ' ' ts
        let timePart := tparts.headD ""
        let period := tparts.get? 1
        let hm := jsSplitChar ':' timePart
        let hoursRaw := hm.headD ""
        let minutesStr := jsTemplateStr (hm.get? 1)
        if period = some "PM" ∧ hoursRaw ≠ "12" then none
        else
          let hoursStr := if period = some "AM" ∧ hoursRaw = "12" then "00" else hoursRaw
          parseISOTemplate yearStr (padStart2 monthRaw) (padStart2 day)
            (padStart2 hoursStr) minutesStr
  | _, _ => none

/-- The catch-block fallback of convertToISODates: tomorrow at 10:00 with the
same two-hour span, computed from the current instant now in ms since the epoch
(the calendar arithmetic of setDate and setHours read at UTC, the deployment
platform clock). -/
def fallbackDates (now : Int) : Int × Int :=
  let start := (now / 86400000) * 86400000 + 86400000 + 36000000
  (start, start + 7200000)

/-- convertToISODates, as the pair of instants its returned ISO strings denote:
the parsed start with a fixed two-hour duration added, or the fallback pair when
the try block throws. -/
def convertToISODates (dateStr timeStr : Option String) (now : Int) : Int × Int :=
  match parseDateTimeJS dateStr timeStr with
  | some start => (start, start + 7200000)
  | none => fallbackDates now

/-! ## Row-store write effects and booking writers -/

/-- A row-store mutation issued by a handler: an append to a named range, or a
single-cell update.  A run of a handler is judged by its outcome together with
the ordered trace of the mutations it issued. -/
inductive SheetEffect where
  | append (range : String) (row : List String)
  | updateCell (range : String) (value : Int)
deriving DecidableEq

/-- The booking-id generator shared by create-direct-booking, create-checkout
and the appending webhook variant: BK followed by Date.now(), the creation
instant in ms. -/
def mkBookingId (nowMs : Nat) : String := "BK" ++ toString nowMs

/-- The request payload of a booking creation, reduced to the fields that
distinguish two requests. -/
structure BookingRequestInfo where
  eventId : String
  customerName : String
  customerEmail : String
deriving DecidableEq

/-- A booking creation: the creation instant read by Date.now() together with
the inbound request. -/
structure BookingCreation where
  nowMs : Nat
  request : BookingRequestInfo
deriving DecidableEq

/-- The booking id a creation receives. -/
def creationBookingId (c : BookingCreation) : String := mkBookingId c.nowMs

/-- The alternative generator of the signature-verified webhook variant:
session.id.substring(0, 8).toUpperCase(). -/
def bookingIdOfSession (sessionId : String) : String :=
  String.mk ((sessionId.data.take 8).map Char.toUpper)

/-- The validated create-direct-booking payload together with the generated
booking id.  The currency amount is carried in its final formatted form
(Number(amount.toFixed(2)) as printed); no verified property inspects it. -/
structure DirectBookingData where
  bookingId : String
  eventId : String
  eventName : String
  customerName : String
  customerEmail : String
  skillLevel : String
  amountStr : String
  addons : List String
deriving DecidableEq

/-- addons.join of the handlers; the empty join is falsy and replaced by the
empty string, which it already is. -/
def joinAddons (addons : List String) : String := String.intercalate ", " addons

/-- The event/session search of the booking writers: scan rows 1.. for the first
row whose column A equals the id, returning the row and its 1-based sheet index. -/
def findRowWithIdxAux (eid : String) : Nat → Grid → Option (List String × Nat)
  | _, [] => none
  | i, r :: rest =>
    if cellAt r 0 = some eid then some (r, i + 1) else findRowWithIdxAux eid (i + 1) rest

/-- Scan of the data rows of a grid by column A value, with 1-based sheet index. -/
def findEventRow (rows : Grid) (eid : String) : Option (List String × Nat) :=
  findRowWithIdxAux eid 1 (rows.drop 1)

/-- The booking row A..P built by saveDirectBookingToSheets of
api/create-direct-booking.js: date, time and location copied from the Events row
(columns D, E, F) with empty-string fallbacks. -/
def directBookingRow (d : DirectBookingData) (today : String) (ev : List String) :
    List String :=
  [d.bookingId, today, d.eventId, d.eventName, d.customerName, d.customerEmail,
   d.amountStr, joinAddons d.addons, "DIRECT_BOOKING", "Confirmed", "", "",
   d.skillLevel, (cellAt ev 3).getD "", (cellAt ev 4).getD "", (cellAt ev 5).getD ""]

/-- saveDirectBookingToSheets of api/create-direct-booking.js: locate the event,
reject when no spots remain, append the booking row, then update the spots cell.
updateOk tells whether the row store accepts the spots update; its failure is
not caught here and propagates to the caller, the append already issued staying
in the trace. -/
def saveDirectBookingV1 (eventRows : Grid) (d : DirectBookingData) (today : String)
    (updateOk : Bool) : Except String String × List SheetEffect :=
  if eventRows.isEmpty then (Except.error "No data found in Events sheet", [])
  else
    match findEventRow eventRows d.eventId with
    | none => (Except.error ("Event not found: " ++ d.eventId), [])
    | some (ev, rowIdx) =>
      let spotsRemaining := parseIntOr0 (cellAt ev 9)
      if spotsRemaining ≤ 0 then (Except.error "No spots remaining for this event", [])
      else
        let app := SheetEffect.append "Bookings!A:P" (directBookingRow d today ev)
        let newSpots := max 0 (spotsRemaining - 1)
        if updateOk then
          (Except.ok d.bookingId,
            [app, SheetEffect.updateCell ("Events!J" ++ toString rowIdx) newSpots])
        else (Except.error "WriteError", [app])

/-- The booking row A..P of the split-spreadsheet saveDirectBookingToSheets
(Sessions variant): date, start time and location come from Sessions columns
E, F and I. -/
def directBookingRowV3 (d : DirectBookingData) (today : String) (sess : List String) :
    List String :=
  [d.bookingId, today, d.eventId, d.eventName, d.customerName, d.customerEmail,
   d.amountStr, joinAddons d.addons, "DIRECT_BOOKING", "Confirmed", "", "",
   d.skillLevel, (cellAt sess 4).getD "", (cellAt sess 5).getD "", (cellAt sess 8).getD ""]

/-- saveDirectBookingToSheets of the split-spreadsheet variant: locate the
session by NBRH ID, reject when no spots remain, append the booking row, then
update Sessions column M.  The spots update runs inside its own try/catch that
deliberately does not rethrow (the booking is already saved), so a rejected
update leaves the outcome a success with only the update effect missing. -/
def saveDirectBookingV3 (sessionRows : Grid) (d : DirectBookingData) (today : String)
    (updateOk : Bool) : Except String String × List SheetEffect :=
  if sessionRows.isEmpty then (Except.error "No data found in Sessions sheet", [])
  else
    match findEventRow sessionRows d.eventId with
    | none => (Except.error ("Session not found with NBRH ID: " ++ d.eventId), [])
    | some (sess, rowIdx) =>
      let spotsRemaining := parseIntOr0 (cellAt sess 12)
      if spotsRemaining ≤ 0 then (Except.error "No spots remaining for this session", [])
      else
        let app := SheetEffect.append "Bookings!A:P" (directBookingRowV3 d today sess)
        let newSpots := max 0 (spotsRemaining - 1)
        if updateOk then
          (Except.ok d.bookingId,
            [app, SheetEffect.updateCell ("Sessions!M" ++ toString rowIdx) newSpots])
        else (Except.ok d.bookingId, [app])

/-- The outcome of the create-direct-booking HTTP handler. -/
inductive DirectRes where
  | ok (bookingId redirectUrl : String)
  | badRequest
  | methodNotAllowed
  | serverError (details : String)
deriving DecidableEq

/-- The create-direct-booking handler of api/create-direct-booking.js: method
check, required-field check (absent or falsy empty strings rejected), booking-id
generation from Date.now(), then saveDirectBookingToSheets, whose thrown errors
the catch block converts into a 500 carrying the message. -/
def createDirectBookingHandler (method : String)
    (eventId eventName customerName customerEmail skillLevel : Option String)
    (amountStr : String) (addons : List String) (nowMs : Nat) (today siteUrl : String)
    (eventRows : Grid) (updateOk : Bool) : DirectRes × List SheetEffect :=
  if method ≠ "POST" then (DirectRes.methodNotAllowed, [])
  else
    match eventId, eventName, customerName, customerEmail, skillLevel with
    | some evI, some evN, some cuN, some cuE, some sk =>
      if evI = "" ∨ evN = "" ∨ cuN = "" ∨ cuE = "" ∨ sk = "" then (DirectRes.badRequest, [])
      else
        let bookingId := mkBookingId nowMs
        let d : DirectBookingData := ⟨bookingId, evI, evN, cuN, cuE, sk, amountStr, addons⟩
        match saveDirectBookingV1 eventRows d today updateOk with
        | (Except.error e, effs) => (DirectRes.serverError e, effs)
        | (Except.ok _, effs) =>
          (DirectRes.ok bookingId (siteUrl ++ "/success.html?booking_id=" ++ bookingId), effs)
    | _, _, _, _, _ => (DirectRes.badRequest, [])

/-! ## The appending webhook variant (api/webhook.js) -/

/-- The metadata a checkout session carries, as read by the webhook. -/
structure StripeMetadata where
  eventId : String
  eventName : String
  customerName : String
  customerEmail : String
  skillLevel : String
  addons : String
  amountStr : String
deriving DecidableEq

/-- A retrieved checkout session with its expanded payment intent. -/
structure StripeSession where
  paymentIntentId : String
  metadata : StripeMetadata
deriving DecidableEq

/-- The booking data assembled from Stripe metadata by the webhook. -/
structure CompleteBookingData where
  eventId : String
  eventName : String
  customerName : String
  customerEmail : String
  skillLevel : String
  addons : String
  amountStr : String
  paymentIntentId : String
deriving DecidableEq

/-- The booking row A..P built by saveCompleteBookingAfterPayment, status
Confirmed, payment intent in column I, event snapshot from Events columns D-F. -/
def completeBookingRow (bd : CompleteBookingData) (bookingId today : String)
    (ev : List String) : List String :=
  [bookingId, today, bd.eventId, bd.eventName, bd.customerName, bd.customerEmail,
   bd.amountStr, bd.addons, bd.paymentIntentId, "Confirmed", "", "",
   bd.skillLevel, (cellAt ev 3).getD "", (cellAt ev 4).getD "", (cellAt ev 5).getD ""]

/-- saveCompleteBookingAfterPayment of api/webhook.js: find the event, append
the Confirmed booking row, then re-scan for the event row index and update the
spots cell when found; an update rejection is not caught here and propagates
(the append stays issued). -/
def saveCompleteBookingAfterPayment (eventRows : Grid) (bd : CompleteBookingData)
    (nowMs : Nat) (today : String) (updateOk : Bool) :
    Except String String × List SheetEffect :=
  if eventRows.isEmpty then (Except.error "No data found in Events sheet", [])
  else
    match findEventRow eventRows bd.eventId with
    | none => (Except.error ("Event not found: " ++ bd.eventId), [])
    | some (ev, _) =>
      let bookingId := mkBookingId nowMs
      let app := SheetEffect.append "Bookings!A:P" (completeBookingRow bd bookingId today ev)
      let newSpots := max 0 (parseIntOr0 (cellAt ev 9) - 1)
      match findEventRow eventRows bd.eventId with
      | some (_, rowIdx) =>
        if updateOk then
          (Except.ok bd.eventId,
            [app, SheetEffect.updateCell ("Events!J" ++ toString rowIdx) newSpots])
        else (Except.error "WriteError", [app])
      | none => (Except.ok bd.eventId, [app])

/-- The outcome of the appending webhook handler. -/
inductive WebhookRes where
  | ok (sessionId paymentIntentId eventId : String)
  | noContent
  | badRequest (msg : String)
  | methodNotAllowed
  | serverError (msg : String)
deriving DecidableEq

/-- The appending webhook handler of api/webhook.js: CORS preflight, method
check, session-id requirement (a missing or falsy empty id is a 400), then the
checkout-session resolution.  With the cs_ marker the session is retrieved
(failure is the fixed 500) and its metadata drives the booking append; without
the marker checkoutSession stays null, so reading checkoutSession.metadata
throws a TypeError that the surrounding catch converts into a 500. -/
def webhookHandlerV1 (method : String) (sessionId : Option String)
    (retrieve : String → Except String StripeSession) (eventRows : Grid)
    (nowMs : Nat) (today : String) (updateOk : Bool) : WebhookRes :=
  if method = "OPTIONS" then WebhookRes.noContent
  else if method ≠ "POST" then WebhookRes.methodNotAllowed
  else
    match sessionId with
    | none => WebhookRes.badRequest "Session ID required"
    | some sid =>
      if sid = "" then WebhookRes.badRequest "Session ID required"
      else if isCheckoutSessionId sid then
        match retrieve sid with
        | Except.error _ => WebhookRes.serverError "Failed to retrieve session from Stripe"
        | Except.ok cs =>
          let md := cs.metadata
          let bd : CompleteBookingData :=
            ⟨md.eventId, md.eventName, md.customerName, md.customerEmail, md.skillLevel,
             (if md.addons = "None" then "" else md.addons), md.amountStr,
             cs.paymentIntentId⟩
          match (saveCompleteBookingAfterPayment eventRows bd nowMs today updateOk).1 with
          | Except.error e => WebhookRes.serverError ("Failed to process webhook: " ++ e)
          | Except.ok evId => WebhookRes.ok sid cs.paymentIntentId evId
      else
        WebhookRes.serverError
          "Failed to process webhook: Cannot read properties of null (reading metadata)"

/-! ## Booking-details read path -/

/-- The merged booking and event response of combineBookingAndEventData;
start_date and end_date carry the instants the returned ISO strings denote. -/
structure BookingDetailsPayload where
  eventTitle : String
  eventDescription : String
  eventLocation : String
  startDate : Int
  endDate : Int
  amountPaid : Option String
  customerName : Option String
  customerEmail : Option String
  bookingId : Option String
  bookingDate : Option String
  eventId : Option String
  addonsSelected : Option String
  stripePaymentId : Option String
  status : Option String
  basePrice : Option String
  transactionFee : Option String
  totalSpots : Option String
  spotsRemaining : Option String
deriving DecidableEq

/-- getBookingValue / getEventValue: header lookup then row cell, null when the
column name is absent (an in-range column of a short row reads as undefined,
carried the same way). -/
def getValueByHeader (headers row : List String) (name : String) : Option String :=
  match headerIndexOf headers name with
  | none => none
  | some i => cellAt row i

/-- A falsy-aware default: the JS pattern value || fallback for strings. -/
def jsOrDefault (v : Option String) (fallback : String) : String :=
  match v with
  | none => fallback
  | some s => if s = "" then fallback else s

/-- amount_paid rendering: pound-prefixed when the stored amount is truthy. -/
def renderAmountPaid (v : Option String) : Option String :=
  match v with
  | none => none
  | some s => if s = "" then none else some ("£" ++ s)

/-- combineBookingAndEventData of booking-details: placeholder fallbacks for
the descriptive fields, the add-ons appended to the description when truthy and
not the literal None, dates converted through convertToISODates. -/
def combineBookingAndEventData (bookingHeaders bookingRow eventHeaders eventRow : List String)
    (now : Int) : BookingDetailsPayload :=
  let eventName := jsOrDefault (getValueByHeader eventHeaders eventRow "event_name")
    "Your Booked Event"
  let eventDescription := jsOrDefault (getValueByHeader eventHeaders eventRow "description")
    ("Thank you for booking " ++ eventName ++ "!")
  let eventLocation := jsOrDefault (getValueByHeader eventHeaders eventRow "location")
    "NBRH - Location TBC"
  let addons := getValueByHeader bookingHeaders bookingRow "addons_selected"
  let fullDescription :=
    match addons with
    | none => eventDescription
    | some a =>
      if a = "" ∨ a = "None" then eventDescription
      else eventDescription ++ "\n\nIncluded Add-ons: " ++ a
  let dates := convertToISODates (getValueByHeader eventHeaders eventRow "date")
    (getValueByHeader eventHeaders eventRow "time") now
  ⟨eventName, fullDescription, eventLocation, dates.1, dates.2,
   renderAmountPaid (getValueByHeader bookingHeaders bookingRow "amount_paid"),
   getValueByHeader bookingHeaders bookingRow "customer_name",
   getValueByHeader bookingHeaders bookingRow "customer_email",
   getValueByHeader bookingHeaders bookingRow "booking_id",
   getValueByHeader bookingHeaders bookingRow "booking_date",
   getValueByHeader bookingHeaders bookingRow "event_id",
   addons,
   getValueByHeader bookingHeaders bookingRow "stripe_payment_id",
   getValueByHeader bookingHeaders bookingRow "status",
   getValueByHeader eventHeaders eventRow "base_price",
   getValueByHeader eventHeaders eventRow "transaction_fee",
   getValueByHeader eventHeaders eventRow "total_spots",
   getValueByHeader eventHeaders eventRow "spots_remaining"⟩

/-- The outcome of a booking-details request.  okFallback is the 200 response
of api/booking-details.js on a booking miss: a fixed test payload echoing the
searched session id, explicitly not a 404. -/
inductive BDRes where
  | ok (p : BookingDetailsPayload)
  | okFallback (sessionId : String)
  | badRequest (msg : String)
  | notFound (msg : String)
  | methodNotAllowed (msg : String)
  | noContent
  | serverError (msg : String)
deriving DecidableEq

/-- The booking-details handler of api/booking-details.js (config and transport
failures of the external services are out of scope): preflight and method
checks, required session_id, empty-grid 404s, header resolution (500 when a
required column is missing), the booking lookup by stripe_payment_id — whose
miss returns the 200 test payload —, then the event lookup by event_id, whose
miss is a 404, and finally the merged 200. -/
def bookingDetailsHandlerV1 (method : String) (sessionId : Option String)
    (bookingRows eventRows : Grid) (now : Int) : BDRes :=
  if method = "OPTIONS" then BDRes.noContent
  else if method ≠ "GET" then BDRes.methodNotAllowed ("Method " ++ method ++ " Not Allowed")
  else
    match sessionId with
    | none => BDRes.badRequest "session_id is required"
    | some sid =>
      if sid = "" then BDRes.badRequest "session_id is required"
      else if bookingRows.isEmpty then BDRes.notFound "No booking data found in Bookings sheet"
      else if eventRows.isEmpty then BDRes.notFound "No event data found in Events sheet"
      else
        let bookingHeaders := bookingRows.headD []
        match headerIndexOf bookingHeaders "stripe_payment_id" with
        | none => BDRes.serverError "stripe_payment_id column not found in Bookings sheet"
        | some spIdx =>
          match bdFindRow bookingRows spIdx sid with
          | none => BDRes.okFallback sid
          | some bookingRow =>
            match headerIndexOf bookingHeaders "event_id" with
            | none => BDRes.serverError "event_id column not found in Bookings sheet"
            | some eIdx =>
              let eventId := cellAt bookingRow eIdx
              let eventHeaders := eventRows.headD []
              match headerIndexOf eventHeaders "event_id" with
              | none => BDRes.serverError "event_id column not found in Events sheet"
              | some ehIdx =>
                match eventRows.find? (fun r => cellAt r ehIdx == eventId) with
                | none => BDRes.notFound
                    ("Event details not found for this event_id: " ++ jsTemplateStr eventId)
                | some eventRow =>
                  BDRes.ok (combineBookingAndEventData bookingHeaders bookingRow
                    eventHeaders eventRow now)

/-- The CommonJS booking-details variant (Sheet1 ranges): identical shape except
that a booking miss is a 404 rather than the test payload, with its own
messages. -/
def bookingDetailsHandlerV2 (method : String) (sessionId : Option String)
    (bookingRows eventRows : Grid) (now : Int) : BDRes :=
  if method = "OPTIONS" then BDRes.noContent
  else if method ≠ "GET" then BDRes.methodNotAllowed ("Method " ++ method ++ " Not Allowed")
  else
    match sessionId with
    | none => BDRes.badRequest "session_id is required"
    | some sid =>
      if sid = "" then BDRes.badRequest "session_id is required"
      else if bookingRows.isEmpty then BDRes.notFound "No booking data found in Sheet1"
      else if eventRows.isEmpty then BDRes.notFound "No event data found in Events sheet"
      else
        let bookingHeaders := bookingRows.headD []
        match headerIndexOf bookingHeaders "stripe_payment_id" with
        | none => BDRes.serverError "stripe_payment_id column not found in booking sheet"
        | some spIdx =>
          match bdFindRow bookingRows spIdx sid with
          | none => BDRes.notFound "Booking not found for this session_id"
          | some bookingRow =>
            match headerIndexOf bookingHeaders "event_id" with
            | none => BDRes.serverError "event_id column not found in booking sheet"
            | some eIdx =>
              let eventId := cellAt bookingRow eIdx
              let eventHeaders := eventRows.headD []
              match headerIndexOf eventHeaders "event_id" with
              | none => BDRes.serverError "event_id column not found in Events sheet"
              | some ehIdx =>
                match eventRows.find? (fun r => cellAt r ehIdx == eventId) with
                | none => BDRes.notFound "Event details not found for this event_id"
                | some eventRow =>
                  BDRes.ok (combineBookingAndEventData bookingHeaders bookingRow
                    eventHeaders eventRow now)

/-! ## Theorems -/

theorem lettersVal_append_singleton (cs : List Char) (c : Char) :
    lettersVal (cs ++ [c]) = lettersVal cs * 26 + (c.toNat - 64) := by
  simp [lettersVal, List.foldl_append]

theorem toNat_ofNat_of_lt26 (r : Nat) (h : r < 26) : (Char.ofNat (65 + r)).toNat = 65 + r := by
  interval_cases r <;> decide

theorem lettersVal_columnLetterAux :
    ∀ fuel n, n ≤ fuel → lettersVal (columnLetterAux fuel n) = n := by
  intro fuel
  induction fuel with
  | zero =>
    intro n hn
    interval_cases n
    simp [columnLetterAux, lettersVal]
  | succ f ih =>
    intro n hn
    match n with
    | 0 => simp [columnLetterAux, lettersVal]
    | m + 1 =>
      have hm : m + 1 - 1 = m := rfl
      have hdiv : m / 26 ≤ f := by
        have h1 : m / 26 ≤ m := Nat.div_le_self m 26
        omega
      have hmod : m % 26 < 26 := Nat.mod_lt _ (by decide)
      have hchar := toNat_ofNat_of_lt26 (m % 26) hmod
      have hrec := ih (m / 26) hdiv
      have hdm : 26 * (m / 26) + m % 26 = m := Nat.div_add_mod m 26
      show lettersVal (columnLetterAux f ((m + 1 - 1) / 26) ++
        [Char.ofNat (65 + (m + 1 - 1) % 26)]) = m + 1
      rw [hm, lettersVal_append_singleton, hrec, hchar]
      omega

/-- Claim C1: decrement_capacity writes back max(0, current - 1) with a
non-numeric or missing current value parsed as 0; in particular current values
0, abc, null (missing) and 3 give 0, 0, 0 and 2, and the result is never
negative. -/
theorem decrement_capacity_floor_at_zero :
    (∀ v : Option String, 0 ≤ decrementSpots v) ∧
    decrementSpots (some "0") = 0 ∧
    decrementSpots (some "abc") = 0 ∧
    decrementSpots none = 0 ∧
    decrementSpots (some "3") = 2 :=
  ⟨fun _ => le_max_left 0 _, by decide, by decide, by decide, by decide⟩

/-- Claim C8: the cell-addressing scheme of update_cell is bijective base-26:
1 maps to A, 26 to Z, 27 to AA, 28 to AB, and the index-to-letter mapping
round-trips with the letter-to-index valuation on every index. -/
theorem column_letter_addressing_roundtrip :
    columnLetterOfIndex 1 = "A" ∧
    columnLetterOfIndex 26 = "Z" ∧
    columnLetterOfIndex 27 = "AA" ∧
    columnLetterOfIndex 28 = "AB" ∧
    ∀ n : Nat, indexOfColumnLetters (columnLetterOfIndex n) = n := by
  refine ⟨by decide, by decide, by decide, by decide, fun n => ?_⟩
  show lettersVal (columnLetterAux n n) = n
  exact lettersVal_columnLetterAux n n (Nat.le_refl n)

/-- Claim C3: the confirmation flow resolves an inbound payment identifier to a
payment-intent id through the payment provider exactly when the identifier
carries a checkout-session marker (a provider failure aborting with the fixed
error), and uses an unmarked identifier unchanged as the lookup key. -/
theorem confirmation_flow_resolution :
    ∀ (sid : String) (retrieve : String → Except String String),
      (isCheckoutSessionId sid = true →
        ∀ pid, retrieve sid = Except.ok pid →
          resolvePaymentKey sid retrieve = Except.ok pid) ∧
      (isCheckoutSessionId sid = true →
        ∀ e, retrieve sid = Except.error e →
          resolvePaymentKey sid retrieve =
            Except.error "Failed to retrieve session from Stripe") ∧
      (isCheckoutSessionId sid = false →
        resolvePaymentKey sid retrieve = Except.ok sid) := by
  intro sid retrieve
  refine ⟨fun hp pid hr => ?_, fun hp e hr => ?_, fun hn => ?_⟩
  · simp [resolvePaymentKey, hp, hr]
  · simp [resolvePaymentKey, hp, hr]
  · simp [resolvePaymentKey, hn]

/-- Witness for claim C3 at concrete inputs: a cs_test_ identifier is replaced by
the provider result, a pi_ identifier passes through unchanged. -/
theorem confirmation_flow_resolution_witness :
    resolvePaymentKey "cs_test_1" (fun _ => Except.ok "pi_1") = Except.ok "pi_1" ∧
    resolvePaymentKey "pi_9" (fun _ => Except.ok "pi_1") = Except.ok "pi_9" :=
  ⟨(confirmation_flow_resolution "cs_test_1" (fun _ => Except.ok "pi_1")).1
      (by decide) "pi_1" rfl,
   (confirmation_flow_resolution "pi_9" (fun _ => Except.ok "pi_1")).2.2 (by decide)⟩

theorem headerIndexOf_eq_none_iff (headers : List String) (name : String) :
    headerIndexOf headers name = none ↔ name ∉ headers := by
  simp only [headerIndexOf, List.findIdx?_eq_none_iff, beq_eq_false_iff_ne, ne_eq]
  constructor
  · intro h hmem
    exact h name hmem rfl
  · intro h x hx hxe
    exact h (hxe ▸ hx)

theorem findDataRowIdxAux_eq_findIdx? (c : Nat) (t : String) :
    ∀ (l : Grid) (i : Nat),
      findDataRowIdxAux c t i l =
        (l.findIdx? (fun r => cellAt r c == some t) i).map (fun j => j + 1) := by
  intro l
  induction l with
  | nil => intro i; simp [findDataRowIdxAux]
  | cons r rest ih =>
    intro i
    by_cases hp : cellAt r c = some t
    · simp [findDataRowIdxAux, hp]
    · have hp2 : (cellAt r c == some t) = false := by simp [hp]
      simp [findDataRowIdxAux, hp, hp2, ih (i + 1)]

/-- The claim of C2, taken for the booking-details lookup, is refuted at a
concrete grid: with the header row cell equal to the target value (no data row
matching), the source lookup returns the header row itself where the claimed
contract returns not_found. -/
theorem find_row_scan_counterexample :
    bdFindRow [["stripe_payment_id", "x"], ["a", "b"]] 0 "stripe_payment_id" =
      some ["stripe_payment_id", "x"] ∧
    findRowByColumnValueSpec [["stripe_payment_id", "x"], ["a", "b"]]
      "stripe_payment_id" "stripe_payment_id" = Except.ok none := by
  exact ⟨rfl, rfl⟩

/-- Claim C2 (amended): column names resolve by exact string match, failing
exactly when the name is absent from the header; the webhook-style lookup
returns precisely the 1-based position of the first data row (scan order, rows
1..N) whose cell at the resolved index equals the target, none when no data row
matches; the booking-details lookup scans from row 0 and agrees with the
data-row scan whenever the header row's cell at that index differs from the
target (and can return the header row itself otherwise). -/
theorem find_row_scan_order_amended :
    (∀ (headers : List String) (name : String),
      headerIndexOf headers name = none ↔ name ∉ headers) ∧
    (∀ (rows : Grid) (c : Nat) (t : String),
      findDataRowIdx rows c t =
        ((rows.drop 1).findIdx? (fun r => cellAt r c == some t)).map (fun j => j + 2)) ∧
    (∀ (rows : Grid) (c : Nat) (t : String),
      cellAt (rows.headD []) c ≠ some t →
        bdFindRow rows c t = (rows.drop 1).find? (fun r => cellAt r c == some t)) := by
  refine ⟨headerIndexOf_eq_none_iff, fun rows c t => ?_, fun rows c t hh => ?_⟩
  · rw [findDataRowIdx, findDataRowIdxAux_eq_findIdx?, List.findIdx?_start_succ,
      Option.map_map]
    cases ((rows.drop 1).findIdx? (fun r => cellAt r c == some t)) <;> simp
  · match rows with
    | [] => rfl
    | r :: rest =>
      have hp : ¬ (cellAt r c == some t) = true := by
        simpa using hh
      show List.find? (fun row => cellAt row c == some t) (r :: rest) =
        ((r :: rest).drop 1).find? (fun row => cellAt row c == some t)
      exact List.find?_cons_of_neg rest hp

/-- Witness for the amended claim C2 at a concrete grid: the header cell
differs from the target, so the booking-details lookup agrees with the
data-row scan. -/
theorem find_row_scan_order_amended_witness :
    cellAt (([["h"], ["x"]] : Grid).headD []) 0 ≠ some "x" ∧
    bdFindRow [["h"], ["x"]] 0 "x" =
      (([["h"], ["x"]] : Grid).drop 1).find? (fun r => cellAt r 0 == some "x") :=
  ⟨by decide, find_row_scan_order_amended.2.2 [["h"], ["x"]] 0 "x" (by decide)⟩

theorem findEventRow_ne_empty {rows : Grid} {eid : String} {x : List String × Nat}
    (h : findEventRow rows eid = some x) : rows.isEmpty = false := by
  cases rows with
  | nil => simp [findEventRow, findRowWithIdxAux] at h
  | cons a l => rfl

/-- Claim C4: a create-direct-booking request whose resolved event row has
spots_remaining ≤ 0 after parsing is rejected with the explicit capacity error
and issues no row-store write at all: in particular no booking row is appended.
Stated for the single-spreadsheet handler and for the split-spreadsheet writer,
whose capacity column is Sessions column M. -/
theorem direct_booking_capacity_rejection :
    ∀ (evI evN cuN cuE sk amountStr : String) (addons : List String) (nowMs : Nat)
      (today siteUrl : String) (eventRows : Grid) (updateOk : Bool)
      (ev : List String) (i : Nat) (d : DirectBookingData),
      (evI ≠ "" → evN ≠ "" → cuN ≠ "" → cuE ≠ "" → sk ≠ "" →
        findEventRow eventRows evI = some (ev, i) →
        parseIntOr0 (cellAt ev 9) ≤ 0 →
        createDirectBookingHandler "POST" (some evI) (some evN) (some cuN) (some cuE)
            (some sk) amountStr addons nowMs today siteUrl eventRows updateOk =
          (DirectRes.serverError "No spots remaining for this event", [])) ∧
      (findEventRow eventRows d.eventId = some (ev, i) →
        parseIntOr0 (cellAt ev 12) ≤ 0 →
        saveDirectBookingV3 eventRows d today updateOk =
          (Except.error "No spots remaining for this session", [])) := by
  intro evI evN cuN cuE sk amountStr addons nowMs today siteUrl eventRows updateOk ev i d
  constructor
  · intro h1 h2 h3 h4 h5 hfind hle
    have hne := findEventRow_ne_empty hfind
    simp [createDirectBookingHandler, saveDirectBookingV1, h1, h2, h3, h4, h5,
      hne, hfind, hle]
  · intro hfind hle
    have hne := findEventRow_ne_empty hfind
    simp [saveDirectBookingV3, hne, hfind, hle]

/-- Witness for claim C4 at concrete grids whose capacity cell reads 0: the
handler answers with the capacity error and an empty write trace, and so does
the split-spreadsheet writer. -/
theorem direct_booking_capacity_rejection_witness :
    createDirectBookingHandler "POST" (some "E1") (some "Yoga") (some "Ann")
        (some "ann@x.io") (some "Beginner") "25" [] 1700000000000 "2025-01-01"
        "https://site" [["event_id"], ["E1", "Yoga", "Desc", "30/01/2025",
          "10:00 AM", "Hall", "", "", "10", "0"]] true =
      (DirectRes.serverError "No spots remaining for this event", []) ∧
    saveDirectBookingV3 [["NBRH ID"], ["S1", "", "", "", "", "", "", "", "", "", "",
        "", "0"]] ⟨"BK1", "S1", "Yoga", "Ann", "ann@x.io", "Beginner", "25", []⟩
        "2025-01-01" true =
      (Except.error "No spots remaining for this session", []) :=
  ⟨(direct_booking_capacity_rejection "E1" "Yoga" "Ann" "ann@x.io" "Beginner" "25" []
      1700000000000 "2025-01-01" "https://site"
      [["event_id"], ["E1", "Yoga", "Desc", "30/01/2025", "10:00 AM", "Hall", "", "",
        "10", "0"]] true
      ["E1", "Yoga", "Desc", "30/01/2025", "10:00 AM", "Hall", "", "", "10", "0"] 2
      ⟨"BK1", "S1", "Yoga", "Ann", "ann@x.io", "Beginner", "25", []⟩).1
    (by decide) (by decide) (by decide) (by decide) (by decide) (by decide) (by decide),
   (direct_booking_capacity_rejection "E1" "Yoga" "Ann" "ann@x.io" "Beginner" "25" []
      1700000000000 "2025-01-01" "https://site"
      [["NBRH ID"], ["S1", "", "", "", "", "", "", "", "", "", "", "", "0"]] true
      ["S1", "", "", "", "", "", "", "", "", "", "", "", "0"] 2
      ⟨"BK1", "S1", "Yoga", "Ann", "ann@x.io", "Beginner", "25", []⟩).2
    (by decide) (by decide)⟩

/-- The claim of C6 is refuted on api/create-direct-booking.js: at a concrete
grid with three spots, a rejected capacity update makes the whole request fail
(the error propagates out of saveDirectBookingToSheets into the 500 of the
handler), while the already-appended booking row stays in the trace. -/
theorem decrement_failure_counterexample :
    saveDirectBookingV1
        [["event_id"],
         ["E1", "Yoga", "Desc", "30/01/2025", "10:00 AM", "Hall", "", "", "10", "3"]]
        ⟨"BK1", "E1", "Yoga", "Ann", "ann@x.io", "Beginner", "25", []⟩
        "2025-01-01" false =
      (Except.error "WriteError",
       [SheetEffect.append "Bookings!A:P"
         ["BK1", "2025-01-01", "E1", "Yoga", "Ann", "ann@x.io", "25", "",
          "DIRECT_BOOKING", "Confirmed", "", "", "Beginner", "30/01/2025",
          "10:00 AM", "Hall"]]) := by
  rfl

/-- Claim C6 (amended): in the split-spreadsheet direct-booking variant a write
failure during the capacity decrement, after the booking row has been appended,
is caught and fails neither the outcome nor removes the appended row; in the
single-spreadsheet direct-booking variant and in the appending webhook the same
failure is not caught and fails the overall request with a 500, though the
booking row already appended is likewise not removed. -/
theorem decrement_failure_policy_amended :
    ∀ (rows : Grid) (d : DirectBookingData) (bd : CompleteBookingData)
      (nowMs : Nat) (today : String) (ev : List String) (i : Nat),
      (findEventRow rows d.eventId = some (ev, i) → 0 < parseIntOr0 (cellAt ev 12) →
        saveDirectBookingV3 rows d today false =
          (Except.ok d.bookingId,
            [SheetEffect.append "Bookings!A:P" (directBookingRowV3 d today ev)])) ∧
      (findEventRow rows d.eventId = some (ev, i) → 0 < parseIntOr0 (cellAt ev 9) →
        saveDirectBookingV1 rows d today false =
          (Except.error "WriteError",
            [SheetEffect.append "Bookings!A:P" (directBookingRow d today ev)])) ∧
      (findEventRow rows bd.eventId = some (ev, i) →
        saveCompleteBookingAfterPayment rows bd nowMs today false =
          (Except.error "WriteError",
            [SheetEffect.append "Bookings!A:P"
              (completeBookingRow bd (mkBookingId nowMs) today ev)])) ∧
      (∀ (retrieve : String → Except String StripeSession) (sid : String)
          (cs : StripeSession),
        sid ≠ "" → isCheckoutSessionId sid = true → retrieve sid = Except.ok cs →
        cs.metadata.addons = "None" →
        bd = ⟨cs.metadata.eventId, cs.metadata.eventName, cs.metadata.customerName,
          cs.metadata.customerEmail, cs.metadata.skillLevel, "", cs.metadata.amountStr,
          cs.paymentIntentId⟩ →
        findEventRow rows bd.eventId = some (ev, i) →
        webhookHandlerV1 "POST" (some sid) retrieve rows nowMs today false =
          WebhookRes.serverError "Failed to process webhook: WriteError") := by
  intro rows d bd nowMs today ev i
  refine ⟨?_, ?_, ?_, ?_⟩
  · intro hfind hpos
    have hne := findEventRow_ne_empty hfind
    have hnle : ¬ parseIntOr0 (cellAt ev 12) ≤ 0 := by omega
    simp [saveDirectBookingV3, hne, hfind, hnle]
  · intro hfind hpos
    have hne := findEventRow_ne_empty hfind
    have hnle : ¬ parseIntOr0 (cellAt ev 9) ≤ 0 := by omega
    simp [saveDirectBookingV1, hne, hfind, hnle]
  · intro hfind
    have hne := findEventRow_ne_empty hfind
    simp [saveCompleteBookingAfterPayment, hne, hfind]
  · intro retrieve sid cs hsid hpre hret haddons hbd hfind
    have hne := findEventRow_ne_empty hfind
    have hpo : ("POST" : String) ≠ "OPTIONS" := by decide
    subst hbd
    simp [webhookHandlerV1, hpo, hsid, hpre, hret, haddons,
      saveCompleteBookingAfterPayment, hne, hfind]

/-- Witness for the amended claim C6 at concrete grids with three spots: the
split-spreadsheet writer still succeeds with the booking appended; the
single-spreadsheet writer and the appending webhook (at the writer and at the
handler, whose response is the 500) fail while keeping the appended booking. -/
theorem decrement_failure_policy_amended_witness :
    saveDirectBookingV3
        [["NBRH ID"],
         ["S1", "", "", "", "d", "t", "", "", "loc", "", "", "", "3"]]
        ⟨"BK1", "S1", "Yoga", "Ann", "ann@x.io", "Beginner", "25", []⟩
        "2025-01-01" false =
      (Except.ok "BK1",
       [SheetEffect.append "Bookings!A:P"
         (directBookingRowV3 ⟨"BK1", "S1", "Yoga", "Ann", "ann@x.io", "Beginner", "25", []⟩
           "2025-01-01" ["S1", "", "", "", "d", "t", "", "", "loc", "", "", "", "3"])]) ∧
    saveDirectBookingV1
        [["event_id"],
         ["E1", "Yoga", "Desc", "30/01/2025", "10:00 AM", "Hall", "", "", "10", "3"]]
        ⟨"BK1", "E1", "Yoga", "Ann", "ann@x.io", "Beginner", "25", []⟩
        "2025-01-01" false =
      (Except.error "WriteError",
       [SheetEffect.append "Bookings!A:P"
         (directBookingRow ⟨"BK1", "E1", "Yoga", "Ann", "ann@x.io", "Beginner", "25", []⟩
           "2025-01-01"
           ["E1", "Yoga", "Desc", "30/01/2025", "10:00 AM", "Hall", "", "", "10", "3"])]) ∧
    saveCompleteBookingAfterPayment
        [["event_id"],
         ["E1", "Yoga", "Desc", "30/01/2025", "10:00 AM", "Hall", "", "", "10", "3"]]
        ⟨"E1", "Yoga", "Ann", "ann@x.io", "Beginner", "", "25", "pi_1"⟩
        1700000000000 "2025-01-01" false =
      (Except.error "WriteError",
       [SheetEffect.append "Bookings!A:P"
         (completeBookingRow ⟨"E1", "Yoga", "Ann", "ann@x.io", "Beginner", "", "25", "pi_1"⟩
           (mkBookingId 1700000000000) "2025-01-01"
           ["E1", "Yoga", "Desc", "30/01/2025", "10:00 AM", "Hall", "", "", "10", "3"])]) ∧
    webhookHandlerV1 "POST" (some "cs_test_1")
        (fun _ => Except.ok ⟨"pi_1", ⟨"E1", "Yoga", "Ann", "ann@x.io", "Beginner", "None", "25"⟩⟩)
        [["event_id"],
         ["E1", "Yoga", "Desc", "30/01/2025", "10:00 AM", "Hall", "", "", "10", "3"]]
        1700000000000 "2025-01-01" false =
      WebhookRes.serverError "Failed to process webhook: WriteError" :=
  ⟨(decrement_failure_policy_amended
      [["NBRH ID"], ["S1", "", "", "", "d", "t", "", "", "loc", "", "", "", "3"]]
      ⟨"BK1", "S1", "Yoga", "Ann", "ann@x.io", "Beginner", "25", []⟩
      ⟨"E1", "Yoga", "Ann", "ann@x.io", "Beginner", "", "25", "pi_1"⟩
      1700000000000 "2025-01-01"
      ["S1", "", "", "", "d", "t", "", "", "loc", "", "", "", "3"] 2).1
    (by decide) (by decide),
   (decrement_failure_policy_amended
      [["event_id"],
       ["E1", "Yoga", "Desc", "30/01/2025", "10:00 AM", "Hall", "", "", "10", "3"]]
      ⟨"BK1", "E1", "Yoga", "Ann", "ann@x.io", "Beginner", "25", []⟩
      ⟨"E1", "Yoga", "Ann", "ann@x.io", "Beginner", "", "25", "pi_1"⟩
      1700000000000 "2025-01-01"
      ["E1", "Yoga", "Desc", "30/01/2025", "10:00 AM", "Hall", "", "", "10", "3"] 2).2.1
    (by decide) (by decide),
   (decrement_failure_policy_amended
      [["event_id"],
       ["E1", "Yoga", "Desc", "30/01/2025", "10:00 AM", "Hall", "", "", "10", "3"]]
      ⟨"BK1", "E1", "Yoga", "Ann", "ann@x.io", "Beginner", "25", []⟩
      ⟨"E1", "Yoga", "Ann", "ann@x.io", "Beginner", "", "25", "pi_1"⟩
      1700000000000 "2025-01-01"
      ["E1", "Yoga", "Desc", "30/01/2025", "10:00 AM", "Hall", "", "", "10", "3"] 2).2.2.1
    (by decide),
   (decrement_failure_policy_amended
      [["event_id"],
       ["E1", "Yoga", "Desc", "30/01/2025", "10:00 AM", "Hall", "", "", "10", "3"]]
      ⟨"BK1", "E1", "Yoga", "Ann", "ann@x.io", "Beginner", "25", []⟩
      ⟨"E1", "Yoga", "Ann", "ann@x.io", "Beginner", "", "25", "pi_1"⟩
      1700000000000 "2025-01-01"
      ["E1", "Yoga", "Desc", "30/01/2025", "10:00 AM", "Hall", "", "", "10", "3"] 2).2.2.2
    (fun _ => Except.ok ⟨"pi_1", ⟨"E1", "Yoga", "Ann", "ann@x.io", "Beginner", "None", "25"⟩⟩)
    "cs_test_1"
    ⟨"pi_1", ⟨"E1", "Yoga", "Ann", "ann@x.io", "Beginner", "None", "25"⟩⟩
    (by decide) (by decide) rfl rfl rfl (by decide)⟩

/-- The claim of C5 is refuted on api/booking-details.js at a concrete store: a
booking lookup miss produces the 200 test payload rather than a 404-class
result. -/
theorem read_path_miss_counterexample :
    bookingDetailsHandlerV1 "GET" (some "cs_x")
        [["stripe_payment_id", "event_id"]] [["event_id"], ["E1"]] 0 =
      BDRes.okFallback "cs_x" := by
  rfl

/-- Claim C5 (amended): in the CommonJS read variant both a booking lookup miss
and an event lookup miss yield a 404-class result and no merged payload; in the
api/booking-details.js variant an event lookup miss likewise yields a 404, but
a booking lookup miss yields a 200 with a fixed placeholder test payload rather
than a 404 (still not a partially-populated merge of store rows). -/
theorem read_path_miss_amended :
    ∀ (sid : String) (bookingRows eventRows : Grid) (now : Int) (spIdx : Nat),
      sid ≠ "" →
      bookingRows.isEmpty = false →
      eventRows.isEmpty = false →
      headerIndexOf (bookingRows.headD []) "stripe_payment_id" = some spIdx →
      (bdFindRow bookingRows spIdx sid = none →
        bookingDetailsHandlerV2 "GET" (some sid) bookingRows eventRows now =
          BDRes.notFound "Booking not found for this session_id" ∧
        bookingDetailsHandlerV1 "GET" (some sid) bookingRows eventRows now =
          BDRes.okFallback sid) ∧
      (∀ (bookingRow : List String) (eIdx ehIdx : Nat),
        bdFindRow bookingRows spIdx sid = some bookingRow →
        headerIndexOf (bookingRows.headD []) "event_id" = some eIdx →
        headerIndexOf (eventRows.headD []) "event_id" = some ehIdx →
        eventRows.find? (fun r => cellAt r ehIdx == cellAt bookingRow eIdx) = none →
        bookingDetailsHandlerV1 "GET" (some sid) bookingRows eventRows now =
          BDRes.notFound ("Event details not found for this event_id: " ++
            jsTemplateStr (cellAt bookingRow eIdx)) ∧
        bookingDetailsHandlerV2 "GET" (some sid) bookingRows eventRows now =
          BDRes.notFound "Event details not found for this event_id") := by
  intro sid bookingRows eventRows now spIdx hsid hbne hene hsp
  have hgo : ("GET" : String) ≠ "OPTIONS" := by decide
  simp only [List.headD_eq_head?_getD] at hsp
  constructor
  · intro hmiss
    constructor
    · simp [bookingDetailsHandlerV2, hgo, hsid, hbne, hene, hsp, hmiss]
    · simp [bookingDetailsHandlerV1, hgo, hsid, hbne, hene, hsp, hmiss]
  · intro bookingRow eIdx ehIdx hhit heIdx hehIdx hemiss
    simp only [List.headD_eq_head?_getD] at heIdx hehIdx
    constructor
    · simp [bookingDetailsHandlerV1, hgo, hsid, hbne, hene, hsp, hhit, heIdx, hehIdx, hemiss]
    · simp [bookingDetailsHandlerV2, hgo, hsid, hbne, hene, hsp, hhit, heIdx, hehIdx, hemiss]

/-- Witness for the amended claim C5 at concrete stores: a booking miss (404 in
the CommonJS variant, test payload in the other) and an event miss (404 in
both). -/
theorem read_path_miss_amended_witness :
    (bookingDetailsHandlerV2 "GET" (some "pi_404")
        [["stripe_payment_id", "event_id"], ["pi_1", "E9"]] [["event_id"], ["E1"]] 0 =
      BDRes.notFound "Booking not found for this session_id" ∧
     bookingDetailsHandlerV1 "GET" (some "pi_404")
        [["stripe_payment_id", "event_id"], ["pi_1", "E9"]] [["event_id"], ["E1"]] 0 =
      BDRes.okFallback "pi_404") ∧
    (bookingDetailsHandlerV1 "GET" (some "pi_1")
        [["stripe_payment_id", "event_id"], ["pi_1", "E9"]] [["event_id"], ["E1"]] 0 =
      BDRes.notFound ("Event details not found for this event_id: " ++
        jsTemplateStr (cellAt ["pi_1", "E9"] 1)) ∧
     bookingDetailsHandlerV2 "GET" (some "pi_1")
        [["stripe_payment_id", "event_id"], ["pi_1", "E9"]] [["event_id"], ["E1"]] 0 =
      BDRes.notFound "Event details not found for this event_id") :=
  ⟨(read_path_miss_amended "pi_404"
      [["stripe_payment_id", "event_id"], ["pi_1", "E9"]] [["event_id"], ["E1"]] 0 0
      (by decide) rfl rfl (by decide)).1 (by decide),
   (read_path_miss_amended "pi_1"
      [["stripe_payment_id", "event_id"], ["pi_1", "E9"]] [["event_id"], ["E1"]] 0 0
      (by decide) rfl rfl (by decide)).2 ["pi_1", "E9"] 1 0
      (by decide) (by decide) (by decide) (by decide)⟩

/-- Claim C10: in the webhook variant that appends the booking from provider
metadata, a nonempty sessionId without the checkout-session marker always ends
in a 500 — the checkout session stays null, so the metadata read throws — and a
success response can only arise from an identifier with the marker. -/
theorem webhook_unprefixed_session_500 :
    ∀ (sid : String) (retrieve : String → Except String StripeSession)
      (eventRows : Grid) (nowMs : Nat) (today : String) (updateOk : Bool),
      (sid ≠ "" → isCheckoutSessionId sid = false →
        webhookHandlerV1 "POST" (some sid) retrieve eventRows nowMs today updateOk =
          WebhookRes.serverError
            "Failed to process webhook: Cannot read properties of null (reading metadata)") ∧
      (∀ (s p e : String),
        webhookHandlerV1 "POST" (some sid) retrieve eventRows nowMs today updateOk =
          WebhookRes.ok s p e → isCheckoutSessionId sid = true) := by
  intro sid retrieve eventRows nowMs today updateOk
  have hpo : ("POST" : String) ≠ "OPTIONS" := by decide
  constructor
  · intro hne hpre
    simp [webhookHandlerV1, hpo, hne, hpre]
  · intro s p e h
    by_cases hpre : isCheckoutSessionId sid = true
    · exact hpre
    · exfalso
      simp only [Bool.not_eq_true] at hpre
      by_cases hsid : sid = ""
      · simp [webhookHandlerV1, hpo, hsid] at h
      · simp [webhookHandlerV1, hpo, hsid, hpre] at h

/-- Witness for claim C10: a concrete payment-intent identifier without the
checkout-session marker is answered with the metadata TypeError 500. -/
theorem webhook_unprefixed_session_500_witness :
    webhookHandlerV1 "POST" (some "pi_123")
        (fun _ => Except.error "no network") [] 0 "2025-01-01" true =
      WebhookRes.serverError
        "Failed to process webhook: Cannot read properties of null (reading metadata)" :=
  (webhook_unprefixed_session_500 "pi_123" (fun _ => Except.error "no network")
    [] 0 "2025-01-01" true).1 (by decide) (by decide)

theorem natOfDecDigits_append_singleton (cs : List Char) (c : Char) :
    natOfDecDigits (cs ++ [c]) = natOfDecDigits cs * 10 + decDigitVal c := by
  simp [natOfDecDigits, List.foldl_append]

theorem digitChar_toNat_of_lt10 (n : Nat) (h : n < 10) :
    (Nat.digitChar n).toNat = 48 + n := by
  interval_cases n <;> decide

theorem toDigitsCore_append10 :
    ∀ (fuel n : Nat) (ds : List Char),
      Nat.toDigitsCore 10 fuel n ds = Nat.toDigitsCore 10 fuel n [] ++ ds := by
  intro fuel
  induction fuel with
  | zero => intro n ds; simp [Nat.toDigitsCore]
  | succ f ih =>
    intro n ds
    simp only [Nat.toDigitsCore]
    by_cases h : n / 10 = 0
    · simp [h]
    · simp only [h, if_false]
      rw [ih (n / 10) (Nat.digitChar (n % 10) :: ds), ih (n / 10) [Nat.digitChar (n % 10)]]
      simp

theorem natOfDecDigits_toDigitsCore :
    ∀ (fuel n : Nat), n < fuel →
      natOfDecDigits (Nat.toDigitsCore 10 fuel n []) = n := by
  intro fuel
  induction fuel with
  | zero => intro n h; exact absurd h (Nat.not_lt_zero n)
  | succ f ih =>
    intro n hn
    simp only [Nat.toDigitsCore]
    by_cases h : n / 10 = 0
    · have hlt : n < 10 := by omega
      have hmod : n % 10 = n := Nat.mod_eq_of_lt hlt
      have hchar := digitChar_toNat_of_lt10 n hlt
      rw [if_pos h, hmod]
      simp only [natOfDecDigits, List.foldl, decDigitVal, hchar]
      omega
    · rw [if_neg h, toDigitsCore_append10, natOfDecDigits_append_singleton]
      have hrec := ih (n / 10) (by omega)
      rw [hrec]
      have hchar := digitChar_toNat_of_lt10 (n % 10) (Nat.mod_lt _ (by decide))
      simp only [decDigitVal, hchar]
      omega

theorem natRepr_inj (m n : Nat) (h : Nat.repr m = Nat.repr n) : m = n := by
  have hd : Nat.toDigits 10 m = Nat.toDigits 10 n := by
    have hdata := congrArg String.data h
    simpa [Nat.repr, List.asString] using hdata
  have hm := natOfDecDigits_toDigitsCore (m + 1) m (Nat.lt_succ_self m)
  have hn := natOfDecDigits_toDigitsCore (n + 1) n (Nat.lt_succ_self n)
  rw [Nat.toDigits, Nat.toDigits] at hd
  calc m = natOfDecDigits (Nat.toDigitsCore 10 (m + 1) m []) := hm.symm
    _ = natOfDecDigits (Nat.toDigitsCore 10 (n + 1) n []) := by rw [hd]
    _ = n := hn

theorem mkBookingId_inj_iff (t1 t2 : Nat) : mkBookingId t1 = mkBookingId t2 ↔ t1 = t2 := by
  constructor
  · intro h
    have hd := congrArg String.data h
    simp only [mkBookingId] at hd
    rw [String.data_append, String.data_append] at hd
    have hd2 := List.append_cancel_left hd
    have hrepr : (Nat.repr t1).data = (Nat.repr t2).data := hd2
    exact natRepr_inj t1 t2 (String.ext hrepr)
  · intro h
    rw [h]

/-- The claim of C9 is refuted at concrete creations: two distinct booking
creations issued in the same Date.now() millisecond receive the same BK token,
and in the signature-verified webhook variant any two cs_test_ checkout
sessions share the substring(0, 8) booking id. -/
theorem booking_id_collision_counterexample :
    (⟨1700000000000, ⟨"E1", "Ann", "ann@x.io"⟩⟩ : BookingCreation) ≠
      ⟨1700000000000, ⟨"E1", "Bob", "bob@x.io"⟩⟩ ∧
    creationBookingId ⟨1700000000000, ⟨"E1", "Ann", "ann@x.io"⟩⟩ =
      creationBookingId ⟨1700000000000, ⟨"E1", "Bob", "bob@x.io"⟩⟩ ∧
    bookingIdOfSession "cs_test_a1b2" = "CS_TEST_" ∧
    bookingIdOfSession "cs_test_z9y8" = "CS_TEST_" :=
  ⟨by decide, rfl, by decide, by decide⟩

/-- Claim C9 (amended): the generated booking id is a deterministic function of
the creation instant alone — two creations receive distinct BK tokens exactly
when their Date.now() instants differ, so creations sharing a millisecond
receive identical ids — and in the signature-verified variant it is a function
of the uppercased first eight characters of the session id alone. -/
theorem booking_id_uniqueness_amended :
    (∀ c1 c2 : BookingCreation,
      creationBookingId c1 = creationBookingId c2 ↔ c1.nowMs = c2.nowMs) ∧
    (∀ s1 s2 : String,
      bookingIdOfSession s1 = bookingIdOfSession s2 ↔
        (s1.data.take 8).map Char.toUpper = (s2.data.take 8).map Char.toUpper) := by
  constructor
  · intro c1 c2
    exact mkBookingId_inj_iff c1.nowMs c2.nowMs
  · intro s1 s2
    constructor
    · intro h
      exact congrArg String.data h
    · intro h
      rw [bookingIdOfSession, bookingIdOfSession, h]
